import Mathlib

/-!
Shallow embedding of the scoring-and-caching engine of the ZhammAI/Model
repository, together with proofs settling the frozen claims about it.

Numeric values computed by the Python source with float arithmetic are
modelled as exact rationals (ℚ); dictionary lookups with defaults are
modelled either as structure fields (when the pipeline always supplies the
key) or as Option values (when a missing key changes control flow).
-/

namespace ZhamModel

/-- Market-data fields read by `DataProcessor._calculate_market_score` and
`DataProcessor.calculate_meta_score` (model-processor.py). Each field models
`data.get(key, default)`; the source defaults every key to 0 except
`market_cap`, whose default 1 is subsumed by the `max mc 1` saturation. -/
structure MarketData where
  volume_24h : ℚ
  price_change_24h : ℚ
  market_cap : ℚ
  holder_growth_24h : ℚ
  liquidity_usd : ℚ
deriving DecidableEq

/-- Sentiment statistics read by `DataProcessor._calculate_social_score`:
`avg_polarity` (default 0), `avg_subjectivity` (default 0.5) and
`sentiment_std` (default 0) from the `sentiment_stats` dict. -/
structure SentimentStats where
  avg_polarity : ℚ
  avg_subjectivity : ℚ
  sentiment_std : ℚ
deriving DecidableEq

/-- Embedding of `DataProcessor._calculate_market_score`: the mean of the
volume-ratio, price-action, holder-growth and liquidity sub-scores. Only the
price-action sub-score has no `min` cap in the source. -/
def calculate_market_score (d : MarketData) : ℚ :=
  let volume_score := min (d.volume_24h / max d.market_cap 1 * 100) 100
  let price_score := 50 + d.price_change_24h / 2
  let holder_score := min (d.holder_growth_24h * 10) 100
  let liquidity_score := min (d.liquidity_usd / max d.market_cap 1 * 200) 100
  (volume_score + price_score + holder_score + liquidity_score) / 4

/-- Embedding of `DataProcessor._calculate_social_score`:
`(50 + polarity*50) * confidence_factor * consistency_factor`. -/
def calculate_social_score (s : SentimentStats) : ℚ :=
  let base_score := 50 + s.avg_polarity * 50
  let confidence_factor := 1 - |s.avg_subjectivity - 1/2| * (1/2)
  let consistency_factor := 1 - min s.sentiment_std (1/2)
  base_score * confidence_factor * consistency_factor

/-- Embedding of `DataProcessor.calculate_meta_score`: the source returns
`market_score * 0.6 + social_score * 0.4`, with no division by 100 and no
clamping. -/
def calculate_meta_score (m : MarketData) (s : SentimentStats) : ℚ :=
  calculate_market_score m * (6/10) + calculate_social_score s * (4/10)

/-- Stated from the spec for comparison with `calculate_meta_score`: meta
score as 0.6 times market score over 100 plus 0.4 times social score over
100, clamped to the unit interval. -/
def meta_score_spec (m : MarketData) (s : SentimentStats) : ℚ :=
  min 1 (max 0 ((6/10) * (calculate_market_score m / 100) +
    (4/10) * (calculate_social_score s / 100)))

/-- Validity predicate for the market-data part of a Snapshot: every numeric
field nonnegative except `price_change_24h`, which is at least -100. -/
def ValidMarket (d : MarketData) : Prop :=
  0 ≤ d.volume_24h ∧ -100 ≤ d.price_change_24h ∧ 0 ≤ d.market_cap ∧
    0 ≤ d.holder_growth_24h ∧ 0 ≤ d.liquidity_usd

/-- Market data with every key absent (all defaults): volumes, caps and
growth 0. -/
def mdZero : MarketData := ⟨0, 0, 0, 0, 0⟩

/-- Sentiment stats with every key absent: polarity 0, subjectivity 0.5,
standard deviation 0. -/
def ssZero : SentimentStats := ⟨0, 1/2, 0⟩

/-- Market data whose only nonzero field is a +1000 percent price change. -/
def mdBigPrice : MarketData := ⟨0, 1000, 0, 0, 0⟩

/-! TTL cache validity (MetaService, meta-service.py). -/

/-- The cache expiry of `MetaService`: 300 seconds. -/
def cache_expiry : ℕ := 300

/-- Python's `timedelta.seconds` attribute for a nonnegative age of
`elapsed` whole seconds: the seconds component after taking out whole days,
i.e. `elapsed` modulo 86400. -/
def timedelta_seconds (elapsed : ℕ) : ℕ := elapsed % 86400

/-- Embedding of `MetaService._is_cache_valid` for a key present in the
cache, as a function of the entry's age in whole seconds: the source
compares `age.seconds` (not the total elapsed time) against the expiry. -/
def is_cache_valid (elapsed : ℕ) : Bool :=
  timedelta_seconds elapsed < cache_expiry

/-! History and momentum (MetaService._calculate_momentum). -/

/-- One entry of `MetaService._meta_history[name]`: the fields written by
`_update_meta_history`. Timestamps are modelled in whole seconds. -/
structure HistoryEntry where
  timestamp : ℕ
  percentage : ℚ
  volume : ℚ
deriving DecidableEq

/-- Python's `round(x, 2)` on an exact rational: round to the nearest
hundredth. (Mathlib's `round` rounds half up while Python's float `round`
is half-to-even; the two agree away from exact half-cent values, and every
value the pipeline stores is already an exact hundredth.) -/
def round2 (x : ℚ) : ℚ := ((round (x * 100) : ℤ) : ℚ) / 100

/-- Embedding of `MetaService._calculate_momentum` on the history list of
one key: 0 with fewer than two entries, otherwise the rounded difference
between the last entry's percentage (`history[-1]`) and the second-to-last
entry's percentage (`history[-2]`). -/
def calculate_momentum (history : List HistoryEntry) : ℚ :=
  match history.reverse with
  | recent :: previous :: _ => round2 (recent.percentage - previous.percentage)
  | _ => 0

/-! Trend classification (MetaService._categorize_trends). -/

/-- The fields of one trend-score dict produced by
`MetaService._calculate_trend_scores` that `_categorize_trends` reads. -/
structure Trend where
  name : String
  percentage : ℚ
  momentum : ℚ
deriving DecidableEq

/-- The three buckets returned by `MetaService._categorize_trends`. -/
structure Buckets where
  trending : List Trend
  rising : List Trend
  declining : List Trend
deriving DecidableEq

/-- Embedding of `MetaService._categorize_trends`: three independent
filters over the input list (which `_calculate_trend_scores` hands over
sorted by percentage, descending), each capped by a slice. -/
def categorize_trends (trends : List Trend) : Buckets where
  trending := (trends.filter fun t => 10 ≤ t.percentage).take 5
  rising := (trends.filter fun t => 5 ≤ t.percentage ∧ t.percentage < 10).take 4
  declining := (trends.filter fun t => t.momentum < 0).take 4

/-- Insert a trend into a percentage-descending list, keeping it sorted. -/
def insertPctDesc (t : Trend) : List Trend → List Trend
  | [] => [t]
  | u :: us =>
    if u.percentage ≤ t.percentage then t :: u :: us else u :: insertPctDesc t us

/-- Insertion sort by percentage, descending. -/
def sortPctDesc : List Trend → List Trend
  | [] => []
  | t :: ts => insertPctDesc t (sortPctDesc ts)

/-- Insert a trend into a momentum-ascending list, keeping it sorted. -/
def insertMomAsc (t : Trend) : List Trend → List Trend
  | [] => [t]
  | u :: us =>
    if t.momentum ≤ u.momentum then t :: u :: us else u :: insertMomAsc t us

/-- Insertion sort by momentum, ascending (most negative first). -/
def sortMomAsc : List Trend → List Trend
  | [] => []
  | t :: ts => insertMomAsc t (sortMomAsc ts)

/-- Stated from the spec for comparison with `categorize_trends`: trending
is the percentage-descending sort of the categories with percentage at
least 10, capped to 5; rising likewise for percentages in [5, 10), capped
to 4; declining is the momentum-ascending sort of the categories with
negative momentum, capped to 4. -/
def categorize_trends_spec (trends : List Trend) : Buckets where
  trending := (sortPctDesc (trends.filter fun t => 10 ≤ t.percentage)).take 5
  rising :=
    (sortPctDesc (trends.filter fun t => 5 ≤ t.percentage ∧ t.percentage < 10)).take 4
  declining := (sortMomAsc (trends.filter fun t => t.momentum < 0)).take 4

/-- Percentage-descending order between adjacent trends, as produced by
`sorted(scores, key=percentage, reverse=True)`. -/
def PctSorted (trends : List Trend) : Prop :=
  List.Pairwise (fun u v => v.percentage ≤ u.percentage) trends

/-- The spec's worked example: categories ai, meme and gaming with
percentages 30, 7 and 3 and momenta 2, -1 and -5, already in the
percentage-descending order the pipeline produces. -/
def exTrends : List Trend :=
  [⟨"ai", 30, 2⟩, ⟨"meme", 7, -1⟩, ⟨"gaming", 3, -5⟩]

/-- A percentage-descending input on which the code's declining order
(percentage-descending) differs from momentum-ascending order. -/
def exTwoDecl : List Trend := [⟨"a", 20, -1⟩, ⟨"b", 15, -5⟩]

/-! Risk assessment (Predictor._assess_risk, model-predictor.py). -/

/-- Market-data fields read by `Predictor._assess_risk`, each modelling
`market_data.get(key, 0)` (the `market_cap` default 1 is subsumed by the
`max mc 1` saturation). -/
structure RiskMarketData where
  volume_24h : ℚ
  market_cap : ℚ
  holder_count : ℚ
  liquidity_usd : ℚ
deriving DecidableEq

/-- The four risk factors computed by `Predictor._assess_risk`. -/
structure RiskFactors where
  confidence_risk : ℚ
  volume_risk : ℚ
  holder_risk : ℚ
  liquidity_risk : ℚ
deriving DecidableEq

/-- The risk-assessment dict returned by `Predictor._assess_risk`; the
fail-safe branch returns empty factors, modelled as `none`. -/
structure RiskAssessment where
  score : ℚ
  level : String
  factors : Option RiskFactors
deriving DecidableEq

/-- The risk factors of `Predictor._assess_risk` for confidence `c`. -/
def risk_factors_of (c : ℚ) (m : RiskMarketData) : RiskFactors where
  confidence_risk := 1 - c
  volume_risk := max 0 (1 - m.volume_24h / max m.market_cap 1)
  holder_risk := max 0 (1 - m.holder_count / 1000)
  liquidity_risk := max 0 (1 - m.liquidity_usd / 100000)

/-- The risk score of `Predictor._assess_risk`: the mean of the four risk
factors, times 100. -/
def risk_score_of (c : ℚ) (m : RiskMarketData) : ℚ :=
  let f := risk_factors_of c m
  (f.confidence_risk + f.volume_risk + f.holder_risk + f.liquidity_risk) / 4 * 100

/-- The risk-level ladder of `Predictor._assess_risk`: below 20 low, below
50 moderate, below 80 high, otherwise very_high. -/
def risk_level_of (s : ℚ) : String :=
  if s < 20 then "low"
  else if s < 50 then "moderate"
  else if s < 80 then "high"
  else "very_high"

/-- Embedding of `Predictor._assess_risk`. The `predictions` argument
models the lookup `predictions['trend_confidence']`: `none` means the key
is absent, so the lookup raises and the `except` branch returns score 100,
level unknown and empty factors. -/
def assess_risk (predictions : Option ℚ) (m : RiskMarketData) : RiskAssessment :=
  match predictions with
  | none => ⟨100, "unknown", none⟩
  | some c =>
    let s := risk_score_of c m
    ⟨s, risk_level_of s, some (risk_factors_of c m)⟩

/-! Prediction validation (Predictor.validate_prediction). -/

/-- The fields of a prediction dict read by `Predictor.validate_prediction`:
`trend_confidence` is accessed directly, `meta_score` via `.get` with
default 0, and the risk level via `.get('risk_assessment', {}).get('level')`
with default `None`. -/
structure Prediction where
  trend_confidence : ℚ
  meta_score : Option ℚ
  risk_level : Option String
deriving DecidableEq

/-- The default confidence threshold of `Predictor.validate_prediction`. -/
def default_threshold : ℚ := 8/10

/-- Embedding of `Predictor.validate_prediction`: confidence at least the
threshold, meta score (default 0) at least 50, and risk level not in
[high, very_high] (an absent level passes the membership test). -/
def validate_prediction (p : Prediction) (threshold : ℚ) : Bool :=
  decide (threshold ≤ p.trend_confidence) &&
    decide ((50:ℚ) ≤ p.meta_score.getD 0) &&
    !(p.risk_level == some "high" || p.risk_level == some "very_high")

/-! Cooperative-interleaving model of the cache read path
(MetaService.get_meta_trends). A task checks the cache atomically (the code
from the top of the method to the first await), then suspends while
fetching and scoring (the awaited calls), then stores the result and
returns (the code after the last await). The `computeCount` counts how many
tasks passed the cache check and started the computation. -/

/-- Program counter of one `get_meta_trends` task: before the cache check,
suspended inside the computation, or returned. -/
inductive TaskPC where
  | ready
  | computing
  | finished
deriving DecidableEq

/-- State of two tasks racing on the `meta_trends` key: each task's program
counter, whether a cache entry is stored and valid, and how many
computations were started. -/
structure FlightState where
  t0 : TaskPC
  t1 : TaskPC
  cached : Bool
  computeCount : ℕ
deriving DecidableEq

/-- One atomic step of a single task: a ready task checks the cache and
either returns on a hit or starts computing on a miss; a computing task
finishes its awaited work, stores the entry and returns. -/
def taskStep (pc : TaskPC) (cached : Bool) (count : ℕ) : TaskPC × Bool × ℕ :=
  match pc with
  | .ready => if cached then (.finished, cached, count) else (.computing, cached, count + 1)
  | .computing => (.finished, true, count)
  | .finished => (.finished, cached, count)

/-- One step of the two-task system: the scheduler picks task 1 (`true`) or
task 0 (`false`) and runs its next atomic step. -/
def sysStep (s : FlightState) (pick : Bool) : FlightState :=
  if pick then
    match taskStep s.t1 s.cached s.computeCount with
    | (pc, c, n) => ⟨s.t0, pc, c, n⟩
  else
    match taskStep s.t0 s.cached s.computeCount with
    | (pc, c, n) => ⟨pc, s.t1, c, n⟩

/-- Initial state: both tasks issued against an uncached key. -/
def flightInit : FlightState := ⟨.ready, .ready, false, 0⟩

/-- Run a schedule (a list of scheduler picks) from the initial state. -/
def runSched (sched : List Bool) : FlightState :=
  sched.foldl sysStep flightInit

/-- Weight of a task for the computation bound: a task not yet past its
cache check has started no computation. -/
def pcWeight (pc : TaskPC) : ℕ :=
  match pc with
  | .ready => 0
  | _ => 1

/-! Broadcast fan-out (ConnectionManager.broadcast, main.py; the
WSConnectionManager in helpers-util.py has the same shape). -/

/-- One registered subscriber: its identity and whether `send_json` to it
succeeds. -/
structure Conn where
  id : ℕ
  send_ok : Bool
deriving DecidableEq

/-- Outcome of a broadcast: who received the message, the remaining
subscriber set, and whether the broadcast itself raised. -/
structure BroadcastResult where
  delivered : List ℕ
  remaining : List Conn
  raised : Bool
deriving DecidableEq

/-- The loop of `ConnectionManager.broadcast`. On a send failure the
handler calls `await self.disconnect(connection)`: the call to the plain
(non-async) `disconnect` runs and removes the subscriber, and the `await`
on its `None` result then raises TypeError inside the except block, which
propagates and aborts the loop before any later subscriber is reached. -/
def broadcast_go (pending : List Conn) (active : List Conn)
    (delivered : List ℕ) : BroadcastResult :=
  match pending with
  | [] => ⟨delivered, active, false⟩
  | c :: rest =>
    if c.send_ok then broadcast_go rest active (delivered ++ [c.id])
    else ⟨delivered, active.erase c, true⟩

/-- Embedding of `ConnectionManager.broadcast` over the subscriber set in
iteration order. -/
def broadcast (conns : List Conn) : BroadcastResult :=
  broadcast_go conns conns []

/-- A two-entry history with percentages 10 and then 15, in time order. -/
def histEx : List HistoryEntry := [⟨0, 10, 0⟩, ⟨1, 15, 0⟩]

/-- A subscriber whose delivery fails. -/
def connFail : Conn := ⟨0, false⟩

/-- A subscriber whose delivery succeeds. -/
def connOk : Conn := ⟨1, true⟩

/-- A prediction with high confidence, low risk, and a meta score inside
the unit interval. -/
def predEx : Prediction := ⟨9/10, some (7/10), some "low"⟩

end ZhamModel

namespace ZhamModel

/-- C1 counterexample: on all-default inputs the source's meta score is
27.5, which differs from the spec formula's clamped 0.275 and lies outside
the unit interval, refuting the claimed equality and the claimed bound. -/
theorem C1_counterexample :
    calculate_meta_score mdZero ssZero = 55/2 ∧
    calculate_meta_score mdZero ssZero ≠ meta_score_spec mdZero ssZero ∧
    ¬ calculate_meta_score mdZero ssZero ≤ 1 := by
  refine ⟨?_, ?_, ?_⟩ <;>
    norm_num [calculate_meta_score, calculate_market_score,
      calculate_social_score, meta_score_spec, mdZero, ssZero]

/-- C1 amended: the meta score equals 0.6 times the market score plus 0.4
times the social score with no normalisation and no clamp; it lies in
[0, 100] (not [0, 1]) whenever both component scores lie in [0, 100]. -/
theorem C1_amended :
    (∀ m s, calculate_meta_score m s =
      (6/10) * calculate_market_score m + (4/10) * calculate_social_score s) ∧
    (∀ m s, 0 ≤ calculate_market_score m → calculate_market_score m ≤ 100 →
      0 ≤ calculate_social_score s → calculate_social_score s ≤ 100 →
      0 ≤ calculate_meta_score m s ∧ calculate_meta_score m s ≤ 100) := by
  constructor
  · intro m s
    unfold calculate_meta_score
    ring
  · intro m s hm0 hm100 hs0 hs100
    unfold calculate_meta_score
    constructor
    · positivity
    · nlinarith

/-- C1 amended witness: the all-default input satisfies the range
hypotheses, and its meta score indeed lands in [0, 100]. -/
theorem C1_amended_witness :
    0 ≤ calculate_meta_score mdZero ssZero ∧
    calculate_meta_score mdZero ssZero ≤ 100 :=
  C1_amended.2 mdZero ssZero
    (by norm_num [calculate_market_score, mdZero])
    (by norm_num [calculate_market_score, mdZero])
    (by norm_num [calculate_social_score, ssZero])
    (by norm_num [calculate_social_score, ssZero])

/-- C2 counterexample: the snapshot with a +1000 percent price change and
all other fields 0 is valid, yet its market score is 137.5: the price-action
sub-score is not clamped, so the market score can exceed 100. -/
theorem C2_counterexample :
    ValidMarket mdBigPrice ∧
    calculate_market_score mdBigPrice = 275/2 ∧
    ¬ calculate_market_score mdBigPrice ≤ 100 := by
  refine ⟨?_, ?_, ?_⟩ <;>
    norm_num [ValidMarket, calculate_market_score, mdBigPrice]

/-- C2 amended: the market score is the mean of the four sub-scores, where
the volume, holder-growth and liquidity sub-scores are min-capped at 100 but
the price-action sub-score 50 + price_change_24h/2 is uncapped; for valid
snapshots the score is nonnegative, and it is at most 100 whenever
price_change_24h is at most 100. -/
theorem C2_amended (d : MarketData) (hv : ValidMarket d) :
    0 ≤ calculate_market_score d ∧
      (d.price_change_24h ≤ 100 → calculate_market_score d ≤ 100) := by
  obtain ⟨h1, h2, h3, h4, h5⟩ := hv
  have hmax : (0:ℚ) < max d.market_cap 1 := lt_of_lt_of_le one_pos (le_max_right _ _)
  unfold calculate_market_score
  constructor
  · have hvol : 0 ≤ min (d.volume_24h / max d.market_cap 1 * 100) 100 :=
      le_min (by positivity) (by norm_num)
    have hpr : 0 ≤ 50 + d.price_change_24h / 2 := by linarith
    have hh : 0 ≤ min (d.holder_growth_24h * 10) 100 :=
      le_min (by positivity) (by norm_num)
    have hl : 0 ≤ min (d.liquidity_usd / max d.market_cap 1 * 200) 100 :=
      le_min (by positivity) (by norm_num)
    positivity
  · intro hp
    have hvol : min (d.volume_24h / max d.market_cap 1 * 100) 100 ≤ 100 :=
      min_le_right _ _
    have hpr : 50 + d.price_change_24h / 2 ≤ 100 := by linarith
    have hh : min (d.holder_growth_24h * 10) 100 ≤ 100 := min_le_right _ _
    have hl : min (d.liquidity_usd / max d.market_cap 1 * 200) 100 ≤ 100 :=
      min_le_right _ _
    linarith

/-- C2 amended witness: the all-default market data is valid, its price
change is at most 100, and its market score 12.5 lies in [0, 100]. -/
theorem C2_amended_witness :
    0 ≤ calculate_market_score mdZero ∧
      (mdZero.price_change_24h ≤ 100 → calculate_market_score mdZero ≤ 100) :=
  C2_amended mdZero (by norm_num [ValidMarket, mdZero])

end ZhamModel

namespace ZhamModel

/-- C4: within the first day the cache code matches the claimed strict-TTL
rule, but an entry aged one day plus ten seconds is still served as valid
because the source compares the seconds component of the age rather than
the total elapsed time. -/
theorem C4_cache_validity_eval :
    is_cache_valid 299 = true ∧ is_cache_valid 300 = false ∧
    is_cache_valid 86410 = true ∧ ¬ (86410 < cache_expiry) := by
  decide

/-- C5 counterexample: on the spec's example input the category meme
(percentage 7, momentum -1) appears in the rising bucket and also in the
declining bucket, so bucket membership is not disjoint. -/
theorem C5_counterexample :
    (⟨"meme", 7, -1⟩ : Trend) ∈ (categorize_trends exTrends).rising ∧
    (⟨"meme", 7, -1⟩ : Trend) ∈ (categorize_trends exTrends).declining := by
  decide

/-- C5 amended: bucket membership is not disjoint: the declining bucket is
computed independently of the percentage buckets, so whenever at most four
input categories have negative momentum, every rising category with
negative momentum also appears in the declining bucket. -/
theorem C5_amended (trends : List Trend) (t : Trend)
    (hlen : (trends.filter fun u => u.momentum < 0).length ≤ 4)
    (ht : t ∈ (categorize_trends trends).rising) (hm : t.momentum < 0) :
    t ∈ (categorize_trends trends).declining := by
  have htr : t ∈ trends := by
    have h1 : t ∈ trends.filter fun u => 5 ≤ u.percentage ∧ u.percentage < 10 :=
      List.take_subset _ _ ht
    exact List.mem_of_mem_filter h1
  have h2 : t ∈ trends.filter fun u => u.momentum < 0 :=
    List.mem_filter.2 ⟨htr, by simpa using hm⟩
  show t ∈ (trends.filter fun u => u.momentum < 0).take 4
  rw [List.take_of_length_le hlen]
  exact h2

/-- C5 amended witness: on the spec's example input only two categories
have negative momentum and meme is rising with negative momentum, so the
amended statement puts meme in the declining bucket. -/
theorem C5_amended_witness :
    (⟨"meme", 7, -1⟩ : Trend) ∈ (categorize_trends exTrends).declining :=
  C5_amended exTrends ⟨"meme", 7, -1⟩ (by decide) (by decide) (by decide)

/-- C6 counterexample: on a percentage-descending input with two declining
categories the code's declining bucket keeps percentage order [a, b] while
the claim's momentum-ascending order is [b, a], so the buckets differ. -/
theorem C6_counterexample :
    PctSorted exTwoDecl ∧
    (categorize_trends exTwoDecl).declining =
      [⟨"a", 20, -1⟩, ⟨"b", 15, -5⟩] ∧
    (categorize_trends_spec exTwoDecl).declining =
      [⟨"b", 15, -5⟩, ⟨"a", 20, -1⟩] ∧
    (categorize_trends exTwoDecl).declining ≠
      (categorize_trends_spec exTwoDecl).declining := by
  refine ⟨?_, by decide, by decide, by decide⟩
  show List.Pairwise _ _
  decide

/-- Inserting into a percentage-descending list whose head is no larger
leaves the element in front. -/
theorem insertPctDesc_cons_of_le (t u : Trend) (us : List Trend)
    (h : u.percentage ≤ t.percentage) :
    insertPctDesc t (u :: us) = t :: u :: us := by
  rw [insertPctDesc, if_pos h]

/-- Insertion sort by descending percentage fixes lists that are already
sorted that way. -/
theorem sortPctDesc_eq_self (l : List Trend)
    (h : List.Pairwise (fun u v => v.percentage ≤ u.percentage) l) :
    sortPctDesc l = l := by
  induction l with
  | nil => rfl
  | cons t ts ih =>
    rw [sortPctDesc, ih h.of_cons]
    cases ts with
    | nil => rfl
    | cons u us =>
      exact insertPctDesc_cons_of_le t u us
        (List.rel_of_pairwise_cons h (List.mem_cons_self u us))

/-- C6 amended: on percentage-descending inputs (as produced by the trend
scorer) the trending and rising buckets are exactly as the spec describes,
but the declining bucket is the momentum-negative categories in the input's
percentage-descending order, capped to 4, not sorted by momentum. -/
theorem C6_amended (trends : List Trend) (hs : PctSorted trends) :
    (categorize_trends trends).trending = (categorize_trends_spec trends).trending ∧
    (categorize_trends trends).rising = (categorize_trends_spec trends).rising ∧
    (categorize_trends trends).declining =
      (trends.filter fun t => t.momentum < 0).take 4 := by
  have hs' : List.Pairwise (fun u v => v.percentage ≤ u.percentage) trends := hs
  refine ⟨?_, ?_, rfl⟩
  · show (trends.filter _).take 5 = (sortPctDesc (trends.filter _)).take 5
    rw [sortPctDesc_eq_self _ (hs'.sublist (List.filter_sublist trends))]
  · show (trends.filter _).take 4 = (sortPctDesc (trends.filter _)).take 4
    rw [sortPctDesc_eq_self _ (hs'.sublist (List.filter_sublist trends))]

/-- C6 amended witness: the amended bucket description evaluated on the
spec's example input. -/
theorem C6_amended_witness :
    (categorize_trends exTrends).trending = (categorize_trends_spec exTrends).trending ∧
    (categorize_trends exTrends).rising = (categorize_trends_spec exTrends).rising ∧
    (categorize_trends exTrends).declining =
      (exTrends.filter fun t => t.momentum < 0).take 4 :=
  C6_amended exTrends (by show List.Pairwise _ _; decide)

end ZhamModel

namespace ZhamModel

/-- C3 counterexample: the schedule in which both callers pass the cache
check before either stores (the second is issued while the first is still
computing) runs the computation twice, not exactly once. -/
theorem C3_counterexample :
    (runSched [false, true]).t0 = TaskPC.computing ∧
    (runSched [false, true]).t1 = TaskPC.computing ∧
    (runSched [false, true, false, true]).computeCount = 2 ∧
    (runSched [false, true, false, true]).computeCount ≠ 1 := by
  decide

/-- One scheduler step preserves the bound relating the computation count
to how many tasks are past their cache check. -/
theorem sysStep_count_le (s : FlightState) (pick : Bool)
    (h : s.computeCount ≤ pcWeight s.t0 + pcWeight s.t1) :
    (sysStep s pick).computeCount ≤
      pcWeight (sysStep s pick).t0 + pcWeight (sysStep s pick).t1 := by
  obtain ⟨t0, t1, cached, count⟩ := s
  cases pick <;> cases t0 <;> cases t1 <;> cases cached <;>
    simp [sysStep, taskStep, pcWeight] at h ⊢ <;> omega

/-- Along any schedule from a state satisfying the count bound, the bound
is an invariant. -/
theorem foldl_count_le (sched : List Bool) (s : FlightState)
    (h : s.computeCount ≤ pcWeight s.t0 + pcWeight s.t1) :
    (sched.foldl sysStep s).computeCount ≤
      pcWeight (sched.foldl sysStep s).t0 + pcWeight (sched.foldl sysStep s).t1 := by
  induction sched generalizing s with
  | nil => exact h
  | cons pick rest ih => exact ih (sysStep s pick) (sysStep_count_le s pick h)

/-- C3 amended: the source cache has no single-flight guard: each caller
whose cache check happens while the key is uncached starts its own
computation, so two racing callers run it twice; a caller that checks after
the first caller's store runs no computation; and under any schedule each
caller computes at most once, so the count never exceeds the number of
callers. -/
theorem C3_amended :
    (runSched [false, true, false, true]).computeCount = 2 ∧
    (runSched [false, false, true]).computeCount = 1 ∧
    ∀ sched : List Bool, (runSched sched).computeCount ≤ 2 := by
  refine ⟨by decide, by decide, fun sched => ?_⟩
  have h := foldl_count_le sched flightInit (by decide)
  have h0 : pcWeight (sched.foldl sysStep flightInit).t0 ≤ 1 := by
    cases (sched.foldl sysStep flightInit).t0 <;> simp [pcWeight]
  have h1 : pcWeight (sched.foldl sysStep flightInit).t1 ≤ 1 := by
    cases (sched.foldl sysStep flightInit).t1 <;> simp [pcWeight]
  show (sched.foldl sysStep flightInit).computeCount ≤ 2
  omega

/-- C7: the risk level returned by the assessment is a pure function of the
returned risk score through the threshold ladder (boundary scores 20, 50
and 80 landing in the higher bucket), and a failing computation (an absent
trend_confidence key) yields score 100 and level unknown. -/
theorem C7_risk_level :
    (∀ (c : ℚ) (m : RiskMarketData),
      (assess_risk (some c) m).level = risk_level_of (assess_risk (some c) m).score) ∧
    (∀ s : ℚ, s < 20 → risk_level_of s = "low") ∧
    (∀ s : ℚ, 20 ≤ s → s < 50 → risk_level_of s = "moderate") ∧
    (∀ s : ℚ, 50 ≤ s → s < 80 → risk_level_of s = "high") ∧
    (∀ s : ℚ, 80 ≤ s → risk_level_of s = "very_high") ∧
    (∀ m : RiskMarketData, assess_risk none m = ⟨100, "unknown", none⟩) := by
  refine ⟨fun c m => rfl, ?_, ?_, ?_, ?_, fun m => rfl⟩
  · intro s h
    rw [risk_level_of, if_pos h]
  · intro s h20 h50
    rw [risk_level_of, if_neg (not_lt.2 h20), if_pos h50]
  · intro s h50 h80
    rw [risk_level_of, if_neg (not_lt.2 (by linarith : (20:ℚ) ≤ s)),
      if_neg (not_lt.2 h50), if_pos h80]
  · intro s h80
    rw [risk_level_of, if_neg (not_lt.2 (by linarith : (20:ℚ) ≤ s)),
      if_neg (not_lt.2 (by linarith : (50:ℚ) ≤ s)), if_neg (not_lt.2 h80)]

/-- C7 witness: the ladder evaluated on both sides of each boundary. -/
theorem C7_witness :
    risk_level_of 19 = "low" ∧ risk_level_of 20 = "moderate" ∧
    risk_level_of 49 = "moderate" ∧ risk_level_of 50 = "high" ∧
    risk_level_of 79 = "high" ∧ risk_level_of 80 = "very_high" :=
  ⟨C7_risk_level.2.1 19 (by norm_num),
    C7_risk_level.2.2.1 20 (by norm_num) (by norm_num),
    C7_risk_level.2.2.1 49 (by norm_num) (by norm_num),
    C7_risk_level.2.2.2.1 50 (by norm_num) (by norm_num),
    C7_risk_level.2.2.2.1 79 (by norm_num) (by norm_num),
    C7_risk_level.2.2.2.2.1 80 (by norm_num)⟩

/-- C8: with fewer than two history entries the momentum is 0, and when
the two most recent entries carry exact hundredths (as every stored,
2-decimal-rounded percentage does) the momentum is exactly the most recent
value minus the second most recent value. -/
theorem C8_momentum :
    (∀ h : List HistoryEntry, h.length < 2 → calculate_momentum h = 0) ∧
    (∀ (pre : List HistoryEntry) (p r : HistoryEntry),
      (∃ a : ℤ, p.percentage = a / 100) → (∃ b : ℤ, r.percentage = b / 100) →
      calculate_momentum (pre ++ [p, r]) = r.percentage - p.percentage) := by
  constructor
  · intro h hlen
    match h with
    | [] => rfl
    | [x] => rfl
    | x :: y :: t =>
      simp at hlen
      exact absurd hlen (by omega)
  · rintro pre p r ⟨a, ha⟩ ⟨b, hb⟩
    have hrev : (pre ++ [p, r]).reverse = r :: p :: pre.reverse := by simp
    rw [calculate_momentum, hrev]
    show round2 (r.percentage - p.percentage) = r.percentage - p.percentage
    rw [round2, ha, hb]
    have hmul : ((b:ℚ) / 100 - (a:ℚ) / 100) * 100 = ((b - a : ℤ) : ℚ) := by
      push_cast
      ring
    rw [hmul, round_intCast]
    push_cast
    ring

/-- C8 witness: the history with percentages 10 then 15 has momentum 5. -/
theorem C8_witness : calculate_momentum histEx = 5 := by
  have h := C8_momentum.2 [] ⟨0, 10, 0⟩ ⟨1, 15, 0⟩
    ⟨1000, by norm_num⟩ ⟨1500, by norm_num⟩
  have h15 : (15:ℚ) - 10 = 5 := by norm_num
  simpa [histEx, h15] using h

/-- C9: broadcasting to a failing subscriber followed by a healthy one
removes the failing subscriber but then raises (the except branch awaits
the value of the non-async disconnect), so the healthy subscriber never
receives the message and the broadcast does not complete cleanly. -/
theorem C9_broadcast_eval :
    broadcast [connFail, connOk] =
      ⟨[], [connOk], true⟩ ∧
    connOk.id ∉ (broadcast [connFail, connOk]).delivered ∧
    (broadcast [connFail, connOk]).raised = true := by
  decide

/-- C10: a prediction validates exactly when its confidence reaches the
threshold, its meta score (defaulting to 0 when absent) reaches 50, and its
risk level is neither high nor very_high; in particular a prediction whose
meta score lies in the unit interval never validates. -/
theorem C10_validate :
    (∀ (p : Prediction) (th : ℚ), validate_prediction p th = true ↔
      (th ≤ p.trend_confidence ∧ 50 ≤ p.meta_score.getD 0 ∧
        p.risk_level ≠ some "high" ∧ p.risk_level ≠ some "very_high")) ∧
    (∀ (p : Prediction) (th m : ℚ), p.meta_score = some m → 0 ≤ m → m ≤ 1 →
      validate_prediction p th = false) := by
  constructor
  · intro p th
    simp [validate_prediction, and_assoc, not_or]
  · intro p th m hm h0 h1
    have hnot : ¬ (50:ℚ) ≤ m := by linarith
    simp [validate_prediction, hm, hnot]

/-- C10 witness: a high-confidence, low-risk prediction whose meta score is
0.7 (inside the unit interval) is rejected at the default threshold. -/
theorem C10_witness : validate_prediction predEx default_threshold = false :=
  C10_validate.2 predEx default_threshold (7/10) rfl (by norm_num) (by norm_num)

end ZhamModel
